import Mathlib

/-!
Verification of the mkcert-rs repository (src/main.rs).

The program is a CLI with three subcommands: `install` creates a self-signed
root CA, writes its key material under
`{home}/Library/Application Support/mkcert-rs`, and adds the certificate to
the macOS login keychain via the external `security` tool; `uninstall`
removes the certificate from the keychain by common name and deletes the
key-material directory; `new` loads the persisted root CA and issues a leaf
certificate for a caller-supplied SAN list into the working directory.

Shallow embedding: external effects (key generation, the `security` and
`openssl` child processes, filesystem write/remove failures) are supplied as
oracle fields of per-operation environment structures; each operation
returns the ordered list of effect events it performed together with its
`Except` result, mirroring the control flow of `Config::install`,
`Config::uninstall` and `Config::new_cert` in src/main.rs line by line.
X.509 material from the rcgen crate is modelled structurally: a key pair is
an opaque identifier, a certificate is its parameters plus the subject key
and the key that signed it, so that `self_signed` yields a certificate whose
issuer key equals its subject key and `signed_by` records the issuer key.
-/

namespace Mkcert

/-- Opaque model of an rcgen `KeyPair` (P-384 ECDSA in the source); the
identifier stands for the key material, and the public key of the pair is
identified with the pair itself. -/
structure KeyPair where
  keyId : Nat
  deriving DecidableEq

/-- The rcgen `DnType` values used by src/main.rs. -/
inductive DnType where
  | commonName
  | localityName
  | countryName
  | organizationName
  | organizationalUnitName
  deriving DecidableEq

/-- The rcgen `SanType` values produced by `CertificateParams::new`: each
caller string parses either as an IP address or as a DNS (IA5) name. -/
inductive SanType where
  | dnsName (s : String)
  | ipAddress (s : String)
  deriving DecidableEq

/-- The caller-supplied string a SAN entry was parsed from. -/
def SanType.value : SanType → String
  | .dnsName s => s
  | .ipAddress s => s

/-- rcgen `BasicConstraints`. -/
inductive BasicConstraints where
  | unconstrained
  | constrained (pathLen : Nat)
  deriving DecidableEq

/-- rcgen `IsCa`. -/
inductive IsCa where
  | noCa
  | ca (bc : BasicConstraints)
  deriving DecidableEq

/-- The rcgen `KeyUsagePurpose` values used by src/main.rs. -/
inductive KeyUsagePurpose where
  | digitalSignature
  | keyEncipherment
  | keyCertSign
  deriving DecidableEq

/-- The rcgen `ExtendedKeyUsagePurpose` values used by src/main.rs. -/
inductive ExtendedKeyUsagePurpose where
  | serverAuth
  | clientAuth
  deriving DecidableEq

/-- rcgen `CertificateParams`, restricted to the fields src/main.rs sets or
that the spec speaks about.  `distinguished_name` keeps the insertion order
of the `push` calls. -/
structure CertificateParams where
  distinguished_name : List (DnType × String)
  is_ca : IsCa
  key_usages : List KeyUsagePurpose
  extended_key_usages : List ExtendedKeyUsagePurpose
  subject_alt_names : List SanType
  deriving DecidableEq

/-- `CertificateParams::default()`: empty subject, not a CA, no usages, no
SANs. -/
def CertificateParams.defaultParams : CertificateParams :=
  { distinguished_name := []
    is_ca := .noCa
    key_usages := []
    extended_key_usages := []
    subject_alt_names := [] }

/-- A signed certificate: its parameters, the key pair it certifies, and the
key pair whose signature it carries. -/
structure Certificate where
  params : CertificateParams
  subjectKey : KeyPair
  issuerKey : KeyPair
  deriving DecidableEq

/-- rcgen `CertificateParams::self_signed`: the produced certificate is
signed by the subject's own key. -/
def CertificateParams.self_signed (p : CertificateParams) (key : KeyPair) : Certificate :=
  { params := p, subjectKey := key, issuerKey := key }

/-- rcgen `CertificateParams::signed_by(key, issuer, issuer_key)`: the
produced certificate certifies `key` and carries `issuer_key`'s signature. -/
def CertificateParams.signed_by (p : CertificateParams) (key : KeyPair)
    (_issuer : Certificate) (issuer_key : KeyPair) : Certificate :=
  { params := p, subjectKey := key, issuerKey := issuer_key }

/-- Signature verification against a public key: the certificate's signature
was made by that key. -/
def Certificate.verifiedBy (c : Certificate) (k : KeyPair) : Prop :=
  c.issuerKey = k

/-- The persisted JSON document at `{home}/.config/mkcert-rs/config.json`,
viewed structurally.  The claims speak about a `thumbprint` field (present
in the dead variant src/config.rs), so the document model carries an
optional thumbprint; serializing the main.rs `Config` never produces one. -/
structure StoredConfig where
  common_name : Option String
  locality : Option String
  country : Option String
  org_unit : Option String
  org_name : Option String
  thumbprint : Option String
  deriving DecidableEq

/-- Content of a file on disk, structurally: a PEM-serialized certificate, a
PEM-serialized private key, a serialized JSON config document, or
corrupt/unparseable bytes. -/
inductive FileContent where
  | certPem (c : Certificate)
  | keyPem (k : KeyPair)
  | configJson (c : StoredConfig)
  | corrupt (raw : String)
  deriving DecidableEq

/-- The `Config` struct of src/main.rs (lines 10-17): five optional
distinguished-name attributes.  Note it has no thumbprint field. -/
structure Config where
  common_name : Option String
  locality : Option String
  country : Option String
  org_unit : Option String
  org_name : Option String
  deriving DecidableEq

/-- `Config::default()` from src/main.rs lines 19-29: the fixed fallback
values written to the config file on first run. -/
def Config.default : Config :=
  { common_name := some "Mkcert Development Certificate"
    locality := some "San Francisco"
    country := some "US"
    org_unit := some "Development"
    org_name := some "Mkcert" }

/-- serde_json serialization of the main.rs `Config` (which has no
thumbprint field): the written document carries no thumbprint. -/
def storedOfConfig (c : Config) : StoredConfig :=
  { common_name := c.common_name
    locality := c.locality
    country := c.country
    org_unit := c.org_unit
    org_name := c.org_name
    thumbprint := none }

/-- serde_json deserialization into the main.rs `Config`: unknown fields
(such as a thumbprint) are ignored. -/
def StoredConfig.toConfig (c : StoredConfig) : Config :=
  { common_name := c.common_name
    locality := c.locality
    country := c.country
    org_unit := c.org_unit
    org_name := c.org_name }

/-- The `Error` enum of src/main.rs lines 31-41: exactly four variants
(serde config parse, rcgen, IO, trust-store command failure).  There is no
variant for "not installed". -/
inductive Error where
  | config (msg : String)
  | rcgen (msg : String)
  | io (msg : String)
  | cert (msg : String)
  deriving DecidableEq

/-- An observable effect performed by an operation, in program order. -/
inductive Event where
  | fsCreateDirAll (path : String)
  | fsWrite (path : String) (content : FileContent)
  | fsRemoveDirAll (path : String)
  | execSecurityAdd (keychain : String) (certPath : String)
  | execSecurityDelete (commonName : String) (keychain : String)
  | execOpenssl (certIn : String) (keyIn : String) (outFile : String)
  | configWrite (stored : StoredConfig)
  deriving DecidableEq

/-- `{home}/Library/Application Support/mkcert-rs` (src/main.rs line 133). -/
def installPath (home : String) : String :=
  home ++ "/Library/Application Support/mkcert-rs"

/-- `{path}/rootCA.crt` (src/main.rs line 136). -/
def rootCertPath (home : String) : String :=
  installPath home ++ "/rootCA.crt"

/-- `{path}/rootCA.key` (src/main.rs line 137). -/
def rootKeyPath (home : String) : String :=
  installPath home ++ "/rootCA.key"

/-- `{path}/rootCA.p12` (src/main.rs line 169). -/
def p12Path (home : String) : String :=
  installPath home ++ "/rootCA.p12"

/-- `{home}/Library/Keychains/login.keychain-db` (src/main.rs lines 147,
190). -/
def keychainPath (home : String) : String :=
  home ++ "/Library/Keychains/login.keychain-db"

/-- `{home}/.config/mkcert-rs` (src/main.rs line 77). -/
def configDirPath (home : String) : String :=
  home ++ "/.config/mkcert-rs"

/-- `{home}/.config/mkcert-rs/config.json` (src/main.rs line 78). -/
def configPath (home : String) : String :=
  configDirPath home ++ "/config.json"

/-- The five `distinguished_name.push` calls shared verbatim by
`Config::install` (src/main.rs lines 102-121) and `Config::new_cert`
(lines 222-241): each optional attribute is taken with
`unwrap_or_default()`, i.e. the empty string when absent. -/
def Config.dnEntries (cfg : Config) : List (DnType × String) :=
  [(.commonName, cfg.common_name.getD ""),
   (.localityName, cfg.locality.getD ""),
   (.countryName, cfg.country.getD ""),
   (.organizationName, cfg.org_name.getD ""),
   (.organizationalUnitName, cfg.org_unit.getD "")]

/-- The `CertificateParams` built by `Config::install` (src/main.rs lines
100-128): subject from `dnEntries`, unconstrained CA, the three key usages,
extended usage serverAuth. -/
def Config.caParams (cfg : Config) : CertificateParams :=
  { distinguished_name := CertificateParams.defaultParams.distinguished_name ++ cfg.dnEntries
    is_ca := .ca .unconstrained
    key_usages := [.digitalSignature, .keyEncipherment, .keyCertSign]
    extended_key_usages := [.serverAuth]
    subject_alt_names := CertificateParams.defaultParams.subject_alt_names }

/-- Oracle environment for one run of `install`: the generated key pair (or
a generation/signing failure), and the outcome of each fallible external
step. `secSpawnOk` is whether `Command::output()` itself returned `Ok`;
`secSuccess` is `status.success()` of the `security add-trusted-cert`
invocation; likewise for `openssl pkcs12 -export`. -/
structure InstallEnv where
  home : String
  genKey : Except String KeyPair
  createDirOk : Bool
  writeCertOk : Bool
  writeKeyOk : Bool
  secSpawnOk : Bool
  secSuccess : Bool
  secOutput : String
  opensslSpawnOk : Bool
  opensslSuccess : Bool

/-- `Config::install` (src/main.rs lines 97-179).  Returns the events
performed, in order, and the operation's result.  Events are recorded when
the corresponding step succeeds; a failing step aborts with `?` exactly as
in the source.  The `security` invocation is recorded once the child
process ran, whether or not it reported success; the `openssl` invocation
is recorded when it ran, and its outcome never affects the result. -/
def Config.install (cfg : Config) (env : InstallEnv) : List Event × Except Error Unit :=
  match env.genKey with
  | .error e => ([], .error (.rcgen e))
  | .ok private_key =>
    let ca_cert := cfg.caParams.self_signed private_key
    let e1 := Event.fsCreateDirAll (installPath env.home)
    let e2 := Event.fsWrite (rootCertPath env.home) (.certPem ca_cert)
    let e3 := Event.fsWrite (rootKeyPath env.home) (.keyPem private_key)
    let e4 := Event.execSecurityAdd (keychainPath env.home) (rootCertPath env.home)
    let e5 := Event.execOpenssl (rootCertPath env.home) (rootKeyPath env.home) (p12Path env.home)
    if env.createDirOk = false then ([], .error (.io "create_dir_all"))
    else if env.writeCertOk = false then ([e1], .error (.io "write rootCA.crt"))
    else if env.writeKeyOk = false then ([e1, e2], .error (.io "write rootCA.key"))
    else if env.secSpawnOk = false then ([e1, e2, e3], .error (.io "security spawn"))
    else if env.secSuccess = false then
      ([e1, e2, e3, e4], .error (.cert ("Error: " ++ env.secOutput)))
    else if env.opensslSpawnOk = true then ([e1, e2, e3, e4, e5], .ok ())
    else ([e1, e2, e3, e4], .ok ())

/-- Oracle environment for one run of `uninstall`. -/
structure UninstallEnv where
  home : String
  secSpawnOk : Bool
  secSuccess : Bool
  secOutput : String
  removeDirOk : Bool

/-- `Config::uninstall` (src/main.rs lines 181-204): runs
`security delete-certificate -c <common_name>` (no thumbprint is consulted;
the struct has none), and only on its success removes the key-material
directory. -/
def Config.uninstall (cfg : Config) (env : UninstallEnv) : List Event × Except Error Unit :=
  let d1 := Event.execSecurityDelete (cfg.common_name.getD "") (keychainPath env.home)
  let d2 := Event.fsRemoveDirAll (installPath env.home)
  if env.secSpawnOk = false then ([], .error (.io "security spawn"))
  else if env.secSuccess = false then
    ([d1], .error (.cert ("Error: " ++ env.secOutput)))
  else if env.removeDirOk = false then ([d1], .error (.io "remove_dir_all"))
  else ([d1, d2], .ok ())

/-- `KeyPair::from_pem`: succeeds exactly on a PEM-serialized private
key. -/
def KeyPair.from_pem : FileContent → Except String KeyPair
  | .keyPem k => .ok k
  | _ => .error "could not parse PEM key"

/-- `CertificateParams::from_ca_cert_pem`: succeeds exactly on a
PEM-serialized certificate, recovering its parameters. -/
def CertificateParams.from_ca_cert_pem : FileContent → Except String CertificateParams
  | .certPem c => .ok c.params
  | _ => .error "could not parse PEM certificate"

/-- Classification of one SAN string by `CertificateParams::new`: an IP
address when the external address parser accepts it, otherwise a DNS name,
which must be an IA5 (ASCII) string. -/
def parseSan (isIp : String → Bool) (s : String) : Except String SanType :=
  if isIp s then .ok (.ipAddress s)
  else if s.all (fun c => decide (c.toNat < 128)) then .ok (.dnsName s)
  else .error "invalid IA5 string"

/-- Classification of a SAN list, first failure wins, order preserved, no
deduplication. -/
def parseSans (isIp : String → Bool) : List String → Except String (List SanType)
  | [] => .ok []
  | s :: rest =>
    match parseSan isIp s, parseSans isIp rest with
    | .ok st, .ok sts => .ok (st :: sts)
    | .error e, _ => .error e
    | .ok _, .error e => .error e

/-- rcgen `CertificateParams::new(sans)`: default parameters with the parsed
SAN list. -/
def CertificateParams.new (isIp : String → Bool) (sans : List String) :
    Except String CertificateParams :=
  match parseSans isIp sans with
  | .error e => .error e
  | .ok sts => .ok { CertificateParams.defaultParams with subject_alt_names := sts }

/-- Association-list filesystem: full path to content. -/
def getFile (files : List (String × FileContent)) (p : String) : Option FileContent :=
  (files.find? (fun f => f.1 == p)).map (fun f => f.2)

/-- Oracle environment for one run of `new`: working directory, the
generated leaf key, the external IP-address parser used for SAN
classification, and the outcomes of the two writes. -/
structure NewEnv where
  home : String
  cwd : String
  genKey : Except String KeyPair
  isIp : String → Bool
  writeCertOk : Bool
  writeKeyOk : Bool

/-- `Config::new_cert` (src/main.rs lines 206-257): reads the persisted
root key then the root certificate, rebuilds the CA certificate by
re-self-signing its parameters with the root key, generates a leaf key,
builds leaf parameters from the SAN list plus the five DN pushes, signs
with the root key, and writes the leaf certificate then the leaf key into
the working directory. -/
def Config.new_cert (cfg : Config) (cert_name key_name : String) (sans : List String)
    (files : List (String × FileContent)) (env : NewEnv) : List Event × Except Error Unit :=
  match getFile files (rootKeyPath env.home) with
  | none => ([], .error (.io "read rootCA.key"))
  | some keyFile =>
    match KeyPair.from_pem keyFile with
    | .error e => ([], .error (.rcgen e))
    | .ok root_key =>
      match getFile files (rootCertPath env.home) with
      | none => ([], .error (.io "read rootCA.crt"))
      | some certFile =>
        match CertificateParams.from_ca_cert_pem certFile with
        | .error e => ([], .error (.rcgen e))
        | .ok rootParams =>
          let root_cert := rootParams.self_signed root_key
          match env.genKey with
          | .error e => ([], .error (.rcgen e))
          | .ok new_key =>
            match CertificateParams.new env.isIp sans with
            | .error e => ([], .error (.rcgen e))
            | .ok base =>
              let leafParams :=
                { base with distinguished_name := base.distinguished_name ++ cfg.dnEntries }
              let new_certificate := leafParams.signed_by new_key root_cert root_key
              let w1 := Event.fsWrite (env.cwd ++ "/" ++ cert_name) (.certPem new_certificate)
              let w2 := Event.fsWrite (env.cwd ++ "/" ++ key_name) (.keyPem new_key)
              if env.writeCertOk = false then ([], .error (.io "write leaf cert"))
              else if env.writeKeyOk = false then ([w1], .error (.io "write leaf key"))
              else ([w1, w2], .ok ())

/-- Content of the persisted config file: a parseable JSON document, or
corrupt bytes (serde_json then fails). -/
inductive ConfigFileContent where
  | valid (c : StoredConfig)
  | corrupt (raw : String)
  deriving DecidableEq

/-- Machine state across process runs: the config file (a separate per-user
path, `{home}/.config/mkcert-rs/config.json`) and the other files the tool
touches, keyed by full path. -/
structure World where
  configFile : Option ConfigFileContent
  files : List (String × FileContent)
  deriving DecidableEq

/-- `fs::write` semantics on the association-list filesystem. -/
def setFile (files : List (String × FileContent)) (p : String) (c : FileContent) :
    List (String × FileContent) :=
  files.filter (fun f => !(f.1 == p)) ++ [(p, c)]

/-- Whether the first character list is an initial segment of the second. -/
def isInitialSegment : List Char → List Char → Bool
  | [], _ => true
  | _ :: _, [] => false
  | a :: as, b :: bs => a == b && isInitialSegment as bs

/-- Whether `pre` is a path prefix of `s`, by characters. -/
def strBeginsWith (s pre : String) : Bool :=
  isInitialSegment pre.data s.data

/-- Effect of one event on the filesystem; `fs::remove_dir_all p` deletes
every file under `p`. -/
def applyEvent (files : List (String × FileContent)) : Event → List (String × FileContent)
  | .fsWrite p c => setFile files p c
  | .fsRemoveDirAll p => files.filter (fun f => !(strBeginsWith f.1 (p ++ "/")))
  | _ => files

/-- Replay a trace of events over the filesystem. -/
def applyEvents (files : List (String × FileContent)) (tr : List Event) :
    List (String × FileContent) :=
  tr.foldl applyEvent files

/-- Whether an event can change the file stored at path `p`: a write to
exactly `p`, or the removal of a directory `p` lies under. -/
def Event.touches : Event → String → Bool
  | .fsWrite q _, p => q == p
  | .fsRemoveDirAll q, p => strBeginsWith p (q ++ "/")
  | _, _ => false

/-- One parsed CLI invocation, with the oracle environment of that run. -/
inductive Cmd where
  | installCmd (env : InstallEnv)
  | uninstallCmd (env : UninstallEnv)
  | newCmd (cert : String) (key : String) (sans : List String) (env : NewEnv)

/-- The subcommand dispatch of `pre_main` (src/main.rs lines 87-91). -/
def dispatch (cfg : Config) (files : List (String × FileContent)) :
    Cmd → List Event × Except Error Unit
  | .installCmd env => cfg.install env
  | .uninstallCmd env => cfg.uninstall env
  | .newCmd cert key sans env => cfg.new_cert cert key sans files env

/-- `pre_main` (src/main.rs lines 75-94), in the config-file-as-resource
view used by the thumbprint claims: when the config file does not exist it
is created with `Config::default()` serialized (hence no thumbprint
field); the file is then read back and the subcommand runs with the parsed
config.  A corrupt existing file makes the run fail before dispatch.  This
view treats the config file as a dedicated resource and its first-run
creation as succeeding; `pre_main_run` below is the full filesystem view
in which the config file shares the path space with every other file and
the creation steps can fail. -/
def pre_main (w : World) (cmd : Cmd) : World × Except Error Unit :=
  match w.configFile with
  | none =>
    let stored := storedOfConfig Config.default
    let r := dispatch stored.toConfig w.files cmd
    ({ configFile := some (.valid stored), files := applyEvents w.files r.1 }, r.2)
  | some (.corrupt _) => (w, .error (.config "Cannot parse config file"))
  | some (.valid c) =>
    let r := dispatch c.toConfig w.files cmd
    ({ configFile := some (.valid c), files := applyEvents w.files r.1 }, r.2)

/-- Kind of a run, for the install/uninstall history. -/
inductive OpKind where
  | installOp
  | uninstallOp
  | newOp
  deriving DecidableEq

/-- Kind of a parsed invocation. -/
def Cmd.kind : Cmd → OpKind
  | .installCmd _ => .installOp
  | .uninstallCmd _ => .uninstallOp
  | .newCmd _ _ _ _ => .newOp

/-- Whether a run ended successfully. -/
def resultOk : Except Error Unit → Bool
  | .ok _ => true
  | .error _ => false

/-- Execute a sequence of process runs, returning the final world and the
log of (operation kind, success) per run in order. -/
def runAll (w : World) : List Cmd → World × List (OpKind × Bool)
  | [] => (w, [])
  | c :: cs =>
    let r := pre_main w c
    let rest := runAll r.1 cs
    (rest.1, (c.kind, resultOk r.2) :: rest.2)

/-- Whether the log ends in a state where the last successful `install` has
not been followed by a successful `uninstall`. -/
def pendingAfter (log : List (OpKind × Bool)) : Bool :=
  log.foldl
    (fun b x =>
      if x.2 then
        match x.1 with
        | .installOp => true
        | .uninstallOp => false
        | .newOp => b
      else b)
    false

/-- The thumbprint field of the persisted config document, when the file
exists and parses. -/
def World.thumbprint (w : World) : Option String :=
  match w.configFile with
  | some (.valid c) => c.thumbprint
  | _ => none

/-- Whether the persisted record currently carries a thumbprint. -/
def World.thumbprintSet (w : World) : Bool :=
  w.thumbprint.isSome

/-- A fresh machine: no config file, no key material. -/
def initialWorld : World :=
  { configFile := none, files := [] }

/-- The home directory of a run: `home_dir()` is read once per process, so
the config path and the operation's paths use the same value. -/
def Cmd.home : Cmd → String
  | .installCmd env => env.home
  | .uninstallCmd env => env.home
  | .newCmd _ _ _ env => env.home

/-- serde_json::from_str of a config file's bytes: succeeds exactly on a
serialized config document (PEM or arbitrary bytes fail to parse). -/
def serde_from_str : FileContent → Except String StoredConfig
  | .configJson c => .ok c
  | _ => .error "Cannot parse config file"

/-- Oracle outcomes for the first-run creation of the config file:
`fs::create_dir_all` and `fs::write` in src/main.rs lines 81-82. -/
structure PreEnv where
  createDirOk : Bool
  writeOk : Bool

/-- `pre_main` (src/main.rs lines 75-94) in the full filesystem view: the
config file lives at `configPath home` in the same path space as every
other file, so a later write to that path (e.g. by `new` when the working
directory and certificate name alias it) is representable.  When the file
does not exist, `create_dir_all` and `fs::write` run and either can fail
with an IO error, aborting before dispatch; on success the file is read
back and the subcommand runs over the updated filesystem.  An existing
file that does not parse aborts with the config error. -/
def pre_main_run (files : List (String × FileContent)) (pre : PreEnv) (cmd : Cmd) :
    List Event × Except Error Unit :=
  match getFile files (configPath cmd.home) with
  | none =>
    if pre.createDirOk = false then ([], .error (.io "create_dir_all"))
    else if pre.writeOk = false then
      ([Event.fsCreateDirAll (configDirPath cmd.home)], .error (.io "write config.json"))
    else
      let stored := storedOfConfig Config.default
      let files1 := setFile files (configPath cmd.home) (.configJson stored)
      let r := dispatch stored.toConfig files1 cmd
      (Event.fsCreateDirAll (configDirPath cmd.home) ::
        Event.fsWrite (configPath cmd.home) (.configJson stored) :: r.1, r.2)
  | some content =>
    match serde_from_str content with
    | .error _ => ([], .error (.config "Cannot parse config file"))
    | .ok c =>
      let r := dispatch c.toConfig files cmd
      (r.1, r.2)

/-- One whole process run in the full filesystem view: the resulting
filesystem and the run's result. -/
def run_fs (files : List (String × FileContent)) (pre : PreEnv) (cmd : Cmd) :
    List (String × FileContent) × Except Error Unit :=
  let r := pre_main_run files pre cmd
  (applyEvents files r.1, r.2)

/-- Whether a run's caller-chosen output paths avoid the config file: only
`new` takes caller paths (cwd-relative certificate and key names), and the
program never checks them against the config path. -/
def Cmd.avoidsConfigPath : Cmd → Prop
  | .newCmd cert key _ env =>
      env.cwd ++ "/" ++ cert ≠ configPath env.home ∧
      env.cwd ++ "/" ++ key ≠ configPath env.home
  | _ => True

/-- A concrete generated root key for concrete executions. -/
def keyA : KeyPair := { keyId := 1 }

/-- A concrete generated leaf key for concrete executions. -/
def keyB : KeyPair := { keyId := 2 }

/-- An install environment in which every external step succeeds. -/
def envAllOk : InstallEnv :=
  { home := "/h"
    genKey := .ok keyA
    createDirOk := true
    writeCertOk := true
    writeKeyOk := true
    secSpawnOk := true
    secSuccess := true
    secOutput := ""
    opensslSpawnOk := true
    opensslSuccess := true }

/-- An install environment in which the `openssl pkcs12` converter is
unavailable (spawning it fails). -/
def envOpensslFail : InstallEnv :=
  { envAllOk with opensslSpawnOk := false, opensslSuccess := false }

/-- An install environment in which `security add-trusted-cert` exits
non-zero. -/
def envSecFail : InstallEnv :=
  { envAllOk with secSuccess := false, secOutput := "exit status: 1" }

/-- An uninstall environment in which every external step succeeds. -/
def envUOk : UninstallEnv :=
  { home := "/h", secSpawnOk := true, secSuccess := true, secOutput := "", removeDirOk := true }

/-- An uninstall environment in which `security delete-certificate` exits
non-zero. -/
def envUFail : UninstallEnv :=
  { envUOk with secSuccess := false, secOutput := "exit status: 1" }

/-- The concrete root CA certificate produced by a default install with
`keyA`. -/
def certA : Certificate := Config.default.caParams.self_signed keyA

/-- The on-disk key material left by a successful default install under
home `/h`. -/
def filesInstalled : List (String × FileContent) :=
  [(rootCertPath "/h", .certPem certA), (rootKeyPath "/h", .keyPem keyA)]

/-- Key material whose root key file holds corrupt (non-PEM) bytes. -/
def filesCorrupt : List (String × FileContent) :=
  [(rootKeyPath "/h", .corrupt "garbage"), (rootCertPath "/h", .certPem certA)]

/-- A `new` environment with a fresh leaf key and an address parser that
accepts nothing. -/
def envNew : NewEnv :=
  { home := "/h"
    cwd := "/w"
    genKey := .ok keyB
    isIp := fun _ => false
    writeCertOk := true
    writeKeyOk := true }

/-- A config whose five attributes are all absent. -/
def cfgAllNone : Config :=
  { common_name := none, locality := none, country := none, org_unit := none, org_name := none }

/-- A config whose common name is absent and whose other attributes are
present. -/
def cfgNoCN : Config :=
  { common_name := none
    locality := some "San Francisco"
    country := some "US"
    org_unit := some "Development"
    org_name := some "Mkcert" }

/-- A concrete successful install invocation. -/
def cmdInstallOk : Cmd := .installCmd envAllOk

/-- First-run config creation succeeding. -/
def preEnvOk : PreEnv := { createDirOk := true, writeOk := true }

/-- An uninstall environment at a fresh machine: `security` runs but exits
non-zero (the certificate was never added to the keychain, so
delete-certificate finds nothing), and the key-material directory does not
exist, so removing it would fail too (never reached). -/
def envUFresh : UninstallEnv :=
  { home := "/h"
    secSpawnOk := true
    secSuccess := false
    secOutput := "security: The specified item could not be found in the keychain."
    removeDirOk := false }

/-- A filesystem after a successful default install: the config document
(no thumbprint field) and the key material. -/
def filesWithConfig : List (String × FileContent) :=
  (configPath "/h", .configJson (storedOfConfig Config.default)) :: filesInstalled

/-- A `new` environment whose working directory is the config directory, so
the default-named leaf key and a certificate named config.json land next to
— or on top of — the config file. -/
def envAlias : NewEnv :=
  { home := "/h"
    cwd := configDirPath "/h"
    genKey := .ok keyB
    isIp := fun _ => false
    writeCertOk := true
    writeKeyOk := true }

/-- A `new` invocation whose certificate output path aliases the config
file. -/
def cmdAlias : Cmd := .newCmd "config.json" "server.key" [] envAlias

/-- The leaf certificate issued by `cmdAlias` against the installed root. -/
def leafAlias : Certificate :=
  CertificateParams.signed_by
    { CertificateParams.defaultParams with
        distinguished_name :=
          CertificateParams.defaultParams.distinguished_name ++ Config.default.dnEntries }
    keyB (certA.params.self_signed keyA) keyA

/-- A SAN entry accepted by `parseSan` keeps the caller's string as its
value. -/
theorem parseSan_value (isIp : String → Bool) (s : String) (st : SanType)
    (h : parseSan isIp s = .ok st) : st.value = s := by
  unfold parseSan at h
  split at h
  · simp only [Except.ok.injEq] at h
    subst h
    rfl
  · split at h
    · simp only [Except.ok.injEq] at h
      subst h
      rfl
    · simp at h

/-- A SAN list accepted by `parseSans` maps back to exactly the caller's
strings, in order. -/
theorem parseSans_values (isIp : String → Bool) :
    ∀ (sans : List String) (sts : List SanType),
      parseSans isIp sans = .ok sts → sts.map SanType.value = sans := by
  intro sans
  induction sans with
  | nil =>
    intro sts h
    simp [parseSans] at h
    subst h
    rfl
  | cons s rest ih =>
    intro sts h
    unfold parseSans at h
    cases hp : parseSan isIp s with
    | error e => rw [hp] at h; simp at h
    | ok st =>
      cases hr : parseSans isIp rest with
      | error e => rw [hp, hr] at h; simp at h
      | ok sts' =>
        rw [hp, hr] at h
        simp only [Except.ok.injEq] at h
        subst h
        simp [parseSan_value isIp s st hp, ih sts' hr]

/-- One run either leaves the config file as it was, or (when it did not
exist) creates it with the serialized defaults. -/
theorem configFile_pre_main (w : World) (c : Cmd) :
    (pre_main w c).1.configFile = w.configFile ∨
      (w.configFile = none ∧
        (pre_main w c).1.configFile = some (.valid (storedOfConfig Config.default))) := by
  cases h : w.configFile with
  | none => exact .inr ⟨rfl, by simp [pre_main, h]⟩
  | some fc =>
    cases fc with
    | corrupt raw => exact .inl (by simp [pre_main, h])
    | valid c' => exact .inl (by simp [pre_main, h])

/-- Worlds with the same config file have the same thumbprint. -/
theorem thumbprint_of_configFile {w w' : World} (h : w'.configFile = w.configFile) :
    w'.thumbprint = w.thumbprint := by
  unfold World.thumbprint
  rw [h]

/-- Prepending the same list to both sides leaves the initial-segment test
unchanged. -/
theorem isInitialSegment_append (xs as bs : List Char) :
    isInitialSegment (xs ++ as) (xs ++ bs) = isInitialSegment as bs := by
  induction xs with
  | nil => rfl
  | cons x xs ih => simp [isInitialSegment, ih]

/-- Prepending the same string to both sides leaves the path-prefix test
unchanged. -/
theorem strBeginsWith_append (h a b : String) :
    strBeginsWith (h ++ a) (h ++ b) = strBeginsWith a b := by
  unfold strBeginsWith
  rw [String.data_append, String.data_append, isInitialSegment_append]

/-- Appending different suffixes to the same string gives different
strings. -/
theorem string_append_right_ne (h : String) {a b : String} (hab : a ≠ b) :
    h ++ a ≠ h ++ b := by
  intro he
  apply hab
  apply String.ext
  have hd := congrArg String.data he
  rw [String.data_append, String.data_append] at hd
  exact List.append_cancel_left hd

/-- The config file and the root certificate never share a path, whatever
the home directory. -/
theorem configPath_ne_rootCertPath (h : String) : configPath h ≠ rootCertPath h := by
  unfold configPath configDirPath rootCertPath installPath
  rw [String.append_assoc, String.append_assoc]
  exact string_append_right_ne h (by decide)

/-- The config file and the root key never share a path, whatever the home
directory. -/
theorem configPath_ne_rootKeyPath (h : String) : configPath h ≠ rootKeyPath h := by
  unfold configPath configDirPath rootKeyPath installPath
  rw [String.append_assoc, String.append_assoc]
  exact string_append_right_ne h (by decide)

/-- The config file does not lie under the key-material directory, whatever
the home directory. -/
theorem config_not_under_installPath (h : String) :
    strBeginsWith (configPath h) (installPath h ++ "/") = false := by
  unfold configPath configDirPath installPath
  rw [String.append_assoc, String.append_assoc, strBeginsWith_append]
  decide

/-- A write is read back at its own path. -/
theorem getFile_setFile_self (fs : List (String × FileContent)) (p : String)
    (c : FileContent) :
    getFile (setFile fs p c) p = some c := by
  unfold getFile setFile
  rw [List.find?_append]
  have hnone : (fs.filter (fun f => !(f.1 == p))).find? (fun f => f.1 == p) = none := by
    rw [List.find?_eq_none]
    intro x hx
    have hk := (List.mem_filter.mp hx).2
    simp at hk ⊢
    exact hk
  rw [hnone]
  simp

/-- A write at one path does not change the lookup at a different path,
within the filtered part. -/
theorem find?_filter_ne (fs : List (String × FileContent)) (p q : String) (h : q ≠ p) :
    (fs.filter (fun f => !(f.1 == p))).find? (fun f => f.1 == q) =
      fs.find? (fun f => f.1 == q) := by
  induction fs with
  | nil => rfl
  | cons f fs ih =>
    rw [List.filter_cons]
    by_cases hq : f.1 = q
    · have hp : (f.1 == p) = false := by
        rw [hq]
        exact beq_eq_false_iff_ne.mpr h
      have hqb : (f.1 == q) = true := by
        rw [hq]
        exact beq_self_eq_true q
      simp [hp, hqb]
    · have hq' : (f.1 == q) = false := beq_eq_false_iff_ne.mpr hq
      by_cases hp : (f.1 == p) = true
      · simp [hp, hq', ih]
      · simp [hp, hq', ih]

/-- A write at one path does not change the lookup at a different path. -/
theorem getFile_setFile_ne (fs : List (String × FileContent)) (p q : String)
    (c : FileContent) (h : q ≠ p) :
    getFile (setFile fs p c) q = getFile fs q := by
  unfold getFile setFile
  rw [List.find?_append]
  have hlast : ([(p, c)].find? (fun f => f.1 == q)) = none := by
    rw [List.find?_eq_none]
    intro x hx
    simp at hx
    subst hx
    simp
    exact fun he => h he.symm
  rw [hlast, Option.or_none, find?_filter_ne fs p q h]

/-- Removing a directory does not change the lookup at a path outside
it. -/
theorem find?_filter_not_under (fs : List (String × FileContent)) (pre q : String)
    (h : strBeginsWith q pre = false) :
    (fs.filter (fun f => !(strBeginsWith f.1 pre))).find? (fun f => f.1 == q) =
      fs.find? (fun f => f.1 == q) := by
  induction fs with
  | nil => rfl
  | cons f fs ih =>
    rw [List.filter_cons]
    by_cases hq : f.1 = q
    · have hb : strBeginsWith f.1 pre = false := by rw [hq]; exact h
      have hqb : (f.1 == q) = true := by rw [hq]; exact beq_self_eq_true q
      simp [hb, hqb]
    · have hq' : (f.1 == q) = false := beq_eq_false_iff_ne.mpr hq
      by_cases hb : strBeginsWith f.1 pre = true
      · simp [hb, hq', ih]
      · simp [hb, hq', ih]

/-- An event that does not touch a path leaves the file there unchanged. -/
theorem getFile_applyEvent_untouched (files : List (String × FileContent)) (e : Event)
    (p : String) (h : Event.touches e p = false) :
    getFile (applyEvent files e) p = getFile files p := by
  cases e with
  | fsWrite q c =>
    have hne : q ≠ p := by simpa [Event.touches] using h
    exact getFile_setFile_ne files q p c (Ne.symm hne)
  | fsRemoveDirAll q =>
    have hb : strBeginsWith p (q ++ "/") = false := by simpa [Event.touches] using h
    unfold applyEvent getFile
    rw [find?_filter_not_under files (q ++ "/") p hb]
  | fsCreateDirAll q => rfl
  | execSecurityAdd a b => rfl
  | execSecurityDelete a b => rfl
  | execOpenssl a b c => rfl
  | configWrite sc => rfl

/-- Unfolding one step of the event replay. -/
theorem applyEvents_cons (files : List (String × FileContent)) (e : Event)
    (tr : List Event) :
    applyEvents files (e :: tr) = applyEvents (applyEvent files e) tr := rfl

/-- A trace none of whose events touches a path leaves the file there
unchanged. -/
theorem getFile_applyEvents_untouched :
    ∀ (tr : List Event) (files : List (String × FileContent)) (p : String),
      tr.all (fun e => !(Event.touches e p)) = true →
      getFile (applyEvents files tr) p = getFile files p
  | [], _, _, _ => rfl
  | e :: tr, files, p, h => by
    rw [List.all_cons, Bool.and_eq_true] at h
    have h1 : Event.touches e p = false := by simpa using h.1
    rw [applyEvents_cons, getFile_applyEvents_untouched tr (applyEvent files e) p h.2,
      getFile_applyEvent_untouched files e p h1]

/-- No event of an `install` run touches a path distinct from the two
key-material files. -/
theorem install_untouched (cfg : Config) (env : InstallEnv) (p : String)
    (h1 : (rootCertPath env.home == p) = false)
    (h2 : (rootKeyPath env.home == p) = false) :
    ((cfg.install env).1.all (fun e => !(Event.touches e p))) = true := by
  cases hk : env.genKey <;>
    cases hb1 : env.createDirOk <;> cases hb2 : env.writeCertOk <;>
      cases hb3 : env.writeKeyOk <;> cases hb4 : env.secSpawnOk <;>
        cases hb5 : env.secSuccess <;> cases hb6 : env.opensslSpawnOk <;>
          simp [Config.install, Event.touches, hk, hb1, hb2, hb3, hb4, hb5, hb6, h1, h2]

/-- No event of an `uninstall` run touches a path outside the key-material
directory. -/
theorem uninstall_untouched (cfg : Config) (env : UninstallEnv) (p : String)
    (h1 : strBeginsWith p (installPath env.home ++ "/") = false) :
    ((cfg.uninstall env).1.all (fun e => !(Event.touches e p))) = true := by
  cases hb1 : env.secSpawnOk <;> cases hb2 : env.secSuccess <;>
    cases hb3 : env.removeDirOk <;>
      simp [Config.uninstall, Event.touches, hb1, hb2, hb3, h1]

/-- No event of a `new` run touches a path distinct from its two output
files. -/
theorem new_cert_untouched (cfg : Config) (cn kn : String) (sans : List String)
    (files : List (String × FileContent)) (env : NewEnv) (p : String)
    (h1 : (env.cwd ++ "/" ++ cn == p) = false)
    (h2 : (env.cwd ++ "/" ++ kn == p) = false) :
    ((cfg.new_cert cn kn sans files env).1.all (fun e => !(Event.touches e p))) = true := by
  cases hk : getFile files (rootKeyPath env.home) with
  | none => simp [Config.new_cert, hk]
  | some keyFile =>
    cases hkp : KeyPair.from_pem keyFile with
    | error e => simp [Config.new_cert, hk, hkp]
    | ok root_key =>
      cases hc : getFile files (rootCertPath env.home) with
      | none => simp [Config.new_cert, hk, hkp, hc]
      | some certFile =>
        cases hcp : CertificateParams.from_ca_cert_pem certFile with
        | error e => simp [Config.new_cert, hk, hkp, hc, hcp]
        | ok rootParams =>
          cases hg : env.genKey with
          | error e => simp [Config.new_cert, hk, hkp, hc, hcp, hg]
          | ok new_key =>
            cases hn : CertificateParams.new env.isIp sans with
            | error e => simp [Config.new_cert, hk, hkp, hc, hcp, hg, hn]
            | ok base =>
              cases hw1 : env.writeCertOk <;> cases hw2 : env.writeKeyOk <;>
                simp [Config.new_cert, Event.touches, hk, hkp, hc, hcp, hg, hn,
                  hw1, hw2, h1, h2]

/-- No dispatched operation touches the config file, provided `new`'s
output paths do not alias it. -/
theorem dispatch_untouched (cfg : Config) (files : List (String × FileContent))
    (cmd : Cmd) (hal : cmd.avoidsConfigPath) :
    ((dispatch cfg files cmd).1.all
      (fun e => !(Event.touches e (configPath cmd.home)))) = true := by
  cases cmd with
  | installCmd env =>
    exact install_untouched cfg env _
      (beq_eq_false_iff_ne.mpr (fun he => configPath_ne_rootCertPath env.home he.symm))
      (beq_eq_false_iff_ne.mpr (fun he => configPath_ne_rootKeyPath env.home he.symm))
  | uninstallCmd env =>
    exact uninstall_untouched cfg env _ (config_not_under_installPath env.home)
  | newCmd cert key sans env =>
    exact new_cert_untouched cfg cert key sans files env _
      (beq_eq_false_iff_ne.mpr hal.1) (beq_eq_false_iff_ne.mpr hal.2)

/-- C4: for every run of `uninstall` in which the trust-store removal step
fails (the `security` child could not be spawned or exited non-zero), the
operation returns an error before any on-disk file is deleted or written
and before the config record is touched; when the command ran and reported
failure the error is the trust-store error carrying its output. -/
theorem c4_uninstall_aborts_before_disk (cfg : Config) (env : UninstallEnv)
    (h : env.secSuccess = false) :
    (∃ e, (cfg.uninstall env).2 = .error e) ∧
    (∀ p, Event.fsRemoveDirAll p ∉ (cfg.uninstall env).1) ∧
    (∀ p c, Event.fsWrite p c ∉ (cfg.uninstall env).1) ∧
    (∀ sc, Event.configWrite sc ∉ (cfg.uninstall env).1) ∧
    (env.secSpawnOk = true →
      (cfg.uninstall env).2 = .error (.cert ("Error: " ++ env.secOutput))) := by
  refine ⟨?_, ?_, ?_, ?_, ?_⟩
  · cases hs : env.secSpawnOk
    · exact ⟨.io "security spawn", by simp [Config.uninstall, hs]⟩
    · exact ⟨.cert ("Error: " ++ env.secOutput), by simp [Config.uninstall, hs, h]⟩
  · intro p hc
    cases hs : env.secSpawnOk <;> simp [Config.uninstall, hs, h] at hc
  · intro p c hc
    cases hs : env.secSpawnOk <;> simp [Config.uninstall, hs, h] at hc
  · intro sc hc
    cases hs : env.secSpawnOk <;> simp [Config.uninstall, hs, h] at hc
  · intro hs
    simp [Config.uninstall, hs, h]

/-- C4 witness: a concrete run in which `security delete-certificate` exits
non-zero. -/
theorem c4_witness :
    (∃ e, (Config.default.uninstall envUFail).2 = .error e) ∧
    (∀ p, Event.fsRemoveDirAll p ∉ (Config.default.uninstall envUFail).1) ∧
    (∀ p c, Event.fsWrite p c ∉ (Config.default.uninstall envUFail).1) ∧
    (∀ sc, Event.configWrite sc ∉ (Config.default.uninstall envUFail).1) ∧
    (envUFail.secSpawnOk = true →
      (Config.default.uninstall envUFail).2 =
        .error (.cert ("Error: " ++ envUFail.secOutput))) :=
  c4_uninstall_aborts_before_disk Config.default envUFail rfl

/-- C9: when key generation, the key-material writes and the trust-store
add all succeed, `install` returns success regardless of whether the
PKCS#12 export could be spawned or succeeded. -/
theorem c9_pkcs12_failure_nonfatal (cfg : Config) (env : InstallEnv) (k : KeyPair)
    (hk : env.genKey = .ok k) (h1 : env.createDirOk = true) (h2 : env.writeCertOk = true)
    (h3 : env.writeKeyOk = true) (h4 : env.secSpawnOk = true) (h5 : env.secSuccess = true) :
    (cfg.install env).2 = .ok () := by
  cases h6 : env.opensslSpawnOk <;>
    simp [Config.install, hk, h1, h2, h3, h4, h5, h6]

/-- C9 witness: a concrete install whose `openssl` converter is unavailable
still succeeds. -/
theorem c9_witness :
    envOpensslFail.opensslSpawnOk = false ∧
    (Config.default.install envOpensslFail).2 = .ok () :=
  ⟨rfl, c9_pkcs12_failure_nonfatal Config.default envOpensslFail keyA rfl rfl rfl rfl rfl rfl⟩

/-- C7: when the persisted root key file holds corrupt (non-PEM) content,
`new` fails with the parse (rcgen) error and performs no effect at all; in
particular no leaf certificate or key file is written. -/
theorem c7_corrupt_root_key (cfg : Config) (cn kn : String) (sans : List String)
    (files : List (String × FileContent)) (env : NewEnv) (raw : String)
    (h : getFile files (rootKeyPath env.home) = some (.corrupt raw)) :
    (∃ msg, (cfg.new_cert cn kn sans files env).2 = .error (.rcgen msg)) ∧
    (cfg.new_cert cn kn sans files env).1 = [] := by
  constructor
  · exact ⟨"could not parse PEM key", by simp [Config.new_cert, h, KeyPair.from_pem]⟩
  · simp [Config.new_cert, h, KeyPair.from_pem]

/-- C7 witness: a concrete run of `new` over a corrupted root key file. -/
theorem c7_witness :
    (∃ msg,
      (Config.default.new_cert "server.crt" "server.key" [] filesCorrupt envNew).2 =
        .error (.rcgen msg)) ∧
    (Config.default.new_cert "server.crt" "server.key" [] filesCorrupt envNew).1 = [] :=
  c7_corrupt_root_key Config.default "server.crt" "server.key" [] filesCorrupt envNew
    "garbage" (by decide)

/-- C5: the CA certificate persisted by `install` is marked as a CA with
unconstrained path length, carries exactly the key usages digitalSignature,
keyEncipherment and keyCertSign and the extended key usage serverAuth, has
subject equal to the identity's five distinguished-name attributes (each
defaulted when absent), and its signature verifies against its own subject
key. -/
theorem c5_ca_certificate_shape (cfg : Config) (env : InstallEnv) (k : KeyPair)
    (hk : env.genKey = .ok k) (h1 : env.createDirOk = true) (h2 : env.writeCertOk = true) :
    Event.fsWrite (rootCertPath env.home) (.certPem (cfg.caParams.self_signed k)) ∈
      (cfg.install env).1 ∧
    (cfg.caParams.self_signed k).params.is_ca = .ca .unconstrained ∧
    (cfg.caParams.self_signed k).params.key_usages =
      [.digitalSignature, .keyEncipherment, .keyCertSign] ∧
    (cfg.caParams.self_signed k).params.extended_key_usages = [.serverAuth] ∧
    (cfg.caParams.self_signed k).params.distinguished_name =
      [(.commonName, cfg.common_name.getD ""),
       (.localityName, cfg.locality.getD ""),
       (.countryName, cfg.country.getD ""),
       (.organizationName, cfg.org_name.getD ""),
       (.organizationalUnitName, cfg.org_unit.getD "")] ∧
    (cfg.caParams.self_signed k).verifiedBy (cfg.caParams.self_signed k).subjectKey := by
  refine ⟨?_, rfl, rfl, rfl, rfl, rfl⟩
  cases h3 : env.writeKeyOk <;> cases h4 : env.secSpawnOk <;>
    cases h5 : env.secSuccess <;> cases h6 : env.opensslSpawnOk <;>
      simp [Config.install, hk, h1, h2, h3, h4, h5, h6]

/-- C5 witness: the shape properties at a concrete successful install. -/
theorem c5_witness :
    Event.fsWrite (rootCertPath envAllOk.home)
        (.certPem (Config.default.caParams.self_signed keyA)) ∈
      (Config.default.install envAllOk).1 ∧
    (Config.default.caParams.self_signed keyA).params.is_ca = .ca .unconstrained ∧
    (Config.default.caParams.self_signed keyA).params.key_usages =
      [.digitalSignature, .keyEncipherment, .keyCertSign] ∧
    (Config.default.caParams.self_signed keyA).params.extended_key_usages = [.serverAuth] ∧
    (Config.default.caParams.self_signed keyA).params.distinguished_name =
      [(.commonName, Config.default.common_name.getD ""),
       (.localityName, Config.default.locality.getD ""),
       (.countryName, Config.default.country.getD ""),
       (.organizationName, Config.default.org_name.getD ""),
       (.organizationalUnitName, Config.default.org_unit.getD "")] ∧
    (Config.default.caParams.self_signed keyA).verifiedBy
      (Config.default.caParams.self_signed keyA).subjectKey :=
  c5_ca_certificate_shape Config.default envAllOk keyA rfl rfl rfl

/-- C3 (amended): whenever `install` reaches the trust-store add, its trace
starts with the directory creation and the two key-material writes, in that
order, before the trust-store invocation; no run of `install` ever writes
the config record (so no thumbprint is ever recorded) or removes files; and
when the trust-store add reported failure the result is the trust-store
error, with the already-performed key-material writes still in the trace. -/
theorem c3_install_ordering (cfg : Config) (env : InstallEnv)
    (hadd : ∃ kc cp, Event.execSecurityAdd kc cp ∈ (cfg.install env).1) :
    ∃ k rest, env.genKey = .ok k ∧
      (cfg.install env).1 =
        Event.fsCreateDirAll (installPath env.home) ::
        Event.fsWrite (rootCertPath env.home) (.certPem (cfg.caParams.self_signed k)) ::
        Event.fsWrite (rootKeyPath env.home) (.keyPem k) ::
        Event.execSecurityAdd (keychainPath env.home) (rootCertPath env.home) :: rest ∧
      (∀ sc, Event.configWrite sc ∉ (cfg.install env).1) ∧
      (∀ p, Event.fsRemoveDirAll p ∉ (cfg.install env).1) ∧
      (env.secSuccess = false →
        (cfg.install env).2 = .error (.cert ("Error: " ++ env.secOutput))) := by
  obtain ⟨kc, cp, hmem⟩ := hadd
  cases hk : env.genKey with
  | error e => simp [Config.install, hk] at hmem
  | ok k =>
    cases h1 : env.createDirOk with
    | false => simp [Config.install, hk, h1] at hmem
    | true =>
      cases h2 : env.writeCertOk with
      | false => simp [Config.install, hk, h1, h2] at hmem
      | true =>
        cases h3 : env.writeKeyOk with
        | false => simp [Config.install, hk, h1, h2, h3] at hmem
        | true =>
          cases h4 : env.secSpawnOk with
          | false => simp [Config.install, hk, h1, h2, h3, h4] at hmem
          | true =>
            cases h5 : env.secSuccess with
            | false =>
              refine ⟨k, [], rfl, ?_, ?_, ?_, ?_⟩
              · simp [Config.install, hk, h1, h2, h3, h4, h5]
              · intro sc hc; simp [Config.install, hk, h1, h2, h3, h4, h5] at hc
              · intro p hc; simp [Config.install, hk, h1, h2, h3, h4, h5] at hc
              · intro _; simp [Config.install, hk, h1, h2, h3, h4, h5]
            | true =>
              cases h6 : env.opensslSpawnOk with
              | false =>
                refine ⟨k, [], rfl, ?_, ?_, ?_, ?_⟩
                · simp [Config.install, hk, h1, h2, h3, h4, h5, h6]
                · intro sc hc; simp [Config.install, hk, h1, h2, h3, h4, h5, h6] at hc
                · intro p hc; simp [Config.install, hk, h1, h2, h3, h4, h5, h6] at hc
                · intro hfalse; exact Bool.noConfusion hfalse
              | true =>
                refine ⟨k,
                  [Event.execOpenssl (rootCertPath env.home) (rootKeyPath env.home)
                    (p12Path env.home)], rfl, ?_, ?_, ?_, ?_⟩
                · simp [Config.install, hk, h1, h2, h3, h4, h5, h6]
                · intro sc hc; simp [Config.install, hk, h1, h2, h3, h4, h5, h6] at hc
                · intro p hc; simp [Config.install, hk, h1, h2, h3, h4, h5, h6] at hc
                · intro hfalse; exact Bool.noConfusion hfalse

/-- C3 counterexample to the claim as stated: a fully successful install
run records no thumbprint at all (its trace contains no config write), so
"the thumbprint is recorded last" is false on the code. -/
theorem c3_counterexample :
    (Config.default.install envAllOk).2 = .ok () ∧
    ∀ sc, Event.configWrite sc ∉ (Config.default.install envAllOk).1 := by
  constructor
  · rfl
  · intro sc hc
    simp [Config.install, envAllOk] at hc

/-- C3 witness: the amended theorem at a concrete run whose trust-store add
exits non-zero. -/
theorem c3_witness :
    ∃ k rest, envSecFail.genKey = .ok k ∧
      (Config.default.install envSecFail).1 =
        Event.fsCreateDirAll (installPath envSecFail.home) ::
        Event.fsWrite (rootCertPath envSecFail.home)
          (.certPem (Config.default.caParams.self_signed k)) ::
        Event.fsWrite (rootKeyPath envSecFail.home) (.keyPem k) ::
        Event.execSecurityAdd (keychainPath envSecFail.home) (rootCertPath envSecFail.home) ::
          rest ∧
      (∀ sc, Event.configWrite sc ∉ (Config.default.install envSecFail).1) ∧
      (∀ p, Event.fsRemoveDirAll p ∉ (Config.default.install envSecFail).1) ∧
      (envSecFail.secSuccess = false →
        (Config.default.install envSecFail).2 =
          .error (.cert ("Error: " ++ envSecFail.secOutput))) :=
  c3_install_ordering Config.default envSecFail
    ⟨keychainPath "/h", rootCertPath "/h", by decide⟩

/-- C6: for every leaf issued by `new` against loaded root key material and
any accepted SAN list (the empty list included), the leaf's signature
verifies against the public key of the rebuilt CA certificate, and its SAN
extension lists exactly the caller-supplied strings in the caller's order,
with no deduplication or canonicalization; both leaf files are written. -/
theorem c6_leaf_issuance (cfg : Config) (cn kn : String) (sans : List String)
    (files : List (String × FileContent)) (env : NewEnv)
    (rk k : KeyPair) (rc : Certificate) (sts : List SanType)
    (hkey : getFile files (rootKeyPath env.home) = some (.keyPem rk))
    (hcert : getFile files (rootCertPath env.home) = some (.certPem rc))
    (hgen : env.genKey = .ok k)
    (hsans : parseSans env.isIp sans = .ok sts)
    (hw1 : env.writeCertOk = true) (hw2 : env.writeKeyOk = true) :
    ∃ leaf : Certificate,
      (cfg.new_cert cn kn sans files env).2 = .ok () ∧
      Event.fsWrite (env.cwd ++ "/" ++ cn) (.certPem leaf) ∈
        (cfg.new_cert cn kn sans files env).1 ∧
      Event.fsWrite (env.cwd ++ "/" ++ kn) (.keyPem k) ∈
        (cfg.new_cert cn kn sans files env).1 ∧
      leaf.verifiedBy (rc.params.self_signed rk).subjectKey ∧
      leaf.params.subject_alt_names.map SanType.value = sans := by
  refine ⟨CertificateParams.signed_by
    { CertificateParams.defaultParams with
        subject_alt_names := sts
        distinguished_name :=
          CertificateParams.defaultParams.distinguished_name ++ cfg.dnEntries }
    k (rc.params.self_signed rk) rk, ?_, ?_, ?_, ?_, ?_⟩
  · simp [Config.new_cert, hkey, hcert, hgen, KeyPair.from_pem,
      CertificateParams.from_ca_cert_pem, CertificateParams.new, hsans, hw1, hw2]
  · simp [Config.new_cert, hkey, hcert, hgen, KeyPair.from_pem,
      CertificateParams.from_ca_cert_pem, CertificateParams.new, hsans, hw1, hw2]
  · simp [Config.new_cert, hkey, hcert, hgen, KeyPair.from_pem,
      CertificateParams.from_ca_cert_pem, CertificateParams.new, hsans, hw1, hw2]
  · rfl
  · simpa [CertificateParams.signed_by] using parseSans_values env.isIp sans sts hsans

/-- C6 witness: a concrete issuance against the installed root with the
empty SAN list. -/
theorem c6_witness :
    ∃ leaf : Certificate,
      (Config.default.new_cert "server.crt" "server.key" [] filesInstalled envNew).2 =
        .ok () ∧
      Event.fsWrite (envNew.cwd ++ "/" ++ "server.crt") (.certPem leaf) ∈
        (Config.default.new_cert "server.crt" "server.key" [] filesInstalled envNew).1 ∧
      Event.fsWrite (envNew.cwd ++ "/" ++ "server.key") (.keyPem keyB) ∈
        (Config.default.new_cert "server.crt" "server.key" [] filesInstalled envNew).1 ∧
      leaf.verifiedBy (certA.params.self_signed keyA).subjectKey ∧
      leaf.params.subject_alt_names.map SanType.value = [] :=
  c6_leaf_issuance Config.default "server.crt" "server.key" [] filesInstalled envNew
    keyA keyB certA [] (by decide) (by decide) rfl rfl rfl rfl

/-- C2 (amended): `uninstall` performs no thumbprint check at all — the
main.rs config has no thumbprint and no "not installed" error exists.  When
the `security` child runs it is always invoked, with the configured common
name as the removal handle; when it reports success and the directory
removal succeeds, the whole key-material directory is deleted and the
operation succeeds. -/
theorem c2_uninstall_never_checks_thumbprint (cfg : Config) (env : UninstallEnv)
    (hspawn : env.secSpawnOk = true) :
    Event.execSecurityDelete (cfg.common_name.getD "") (keychainPath env.home) ∈
      (cfg.uninstall env).1 ∧
    (env.secSuccess = true → env.removeDirOk = true →
      (cfg.uninstall env).2 = .ok () ∧
      Event.fsRemoveDirAll (installPath env.home) ∈ (cfg.uninstall env).1) := by
  constructor
  · cases h2 : env.secSuccess <;> cases h3 : env.removeDirOk <;>
      simp [Config.uninstall, hspawn, h2, h3]
  · intro h2 h3
    simp [Config.uninstall, hspawn, h2, h3]

/-- C2 counterexample to the claim as stated, on a real execution at a
genuinely fresh machine (no prior install whatsoever, so in particular no
thumbprint): `uninstall` performs no installed-state check — it invokes
`security delete-certificate` by common name, and when that command exits
non-zero (the certificate was never added) the run fails with the
trust-store error `Error::Cert`, not with a NotInstalledError, which the
source `Error` enum does not even contain.  The whole-run trace leaves the
filesystem holding only the config file `pre_main` just created. -/
theorem c2_counterexample :
    (Config.default.uninstall envUFresh).1 =
      [Event.execSecurityDelete "Mkcert Development Certificate" (keychainPath "/h")] ∧
    (Config.default.uninstall envUFresh).2 =
      .error (.cert ("Error: " ++ envUFresh.secOutput)) ∧
    (run_fs [] preEnvOk (Cmd.uninstallCmd envUFresh)).2 =
      .error (.cert ("Error: " ++ envUFresh.secOutput)) ∧
    (run_fs [] preEnvOk (Cmd.uninstallCmd envUFresh)).1 =
      [(configPath "/h", .configJson (storedOfConfig Config.default))] := by
  refine ⟨rfl, rfl, rfl, by decide⟩

/-- C2 witness: the amended theorem at a concrete successful run. -/
theorem c2_witness :
    Event.execSecurityDelete (Config.default.common_name.getD "") (keychainPath envUOk.home) ∈
      (Config.default.uninstall envUOk).1 ∧
    (envUOk.secSuccess = true → envUOk.removeDirOk = true →
      (Config.default.uninstall envUOk).2 = .ok () ∧
      Event.fsRemoveDirAll (installPath envUOk.home) ∈ (Config.default.uninstall envUOk).1) :=
  c2_uninstall_never_checks_thumbprint Config.default envUOk rfl

/-- C1 (amended): the thumbprint is never set — starting from a fresh
machine, after any sequence of program runs the persisted record still
carries no thumbprint, because `install` never records one and no
operation ever rewrites the config file. -/
theorem c1_thumbprint_never_set (cmds : List Cmd) :
    (runAll initialWorld cmds).1.thumbprint = none := by
  have aux : ∀ (cs : List Cmd) (w : World),
      w.thumbprint = none → (runAll w cs).1.thumbprint = none := by
    intro cs
    induction cs with
    | nil => intro w h; simpa [runAll] using h
    | cons c rest ih =>
      intro w h
      have h1 : (pre_main w c).1.thumbprint = none := by
        rcases configFile_pre_main w c with hco | ⟨_, hs⟩
        · rw [thumbprint_of_configFile hco]; exact h
        · simp [World.thumbprint, hs, storedOfConfig]
      simpa [runAll] using ih (pre_main w c).1 h1
  exact aux cmds initialWorld rfl

/-- C1 counterexample to the claim as stated: one successful `install` from
a fresh machine leaves the last successful install unfollowed by an
uninstall, yet the persisted record's thumbprint is not set — the
biconditional fails. -/
theorem c1_counterexample :
    pendingAfter (runAll initialWorld [cmdInstallOk]).2 = true ∧
    (runAll initialWorld [cmdInstallOk]).1.thumbprintSet = false := by
  exact ⟨rfl, rfl⟩

/-- C8 (amended): every operation substitutes the empty string — not the
fixed fallback — for an absent identity attribute: the certificate subject
fields and the uninstall removal handle all become empty; the fixed
fallback values exist only in the serialized defaults written when the
config file is first created. -/
theorem c8_absent_attributes_become_empty (cfg : Config)
    (h1 : cfg.common_name = none) (h2 : cfg.locality = none) (h3 : cfg.country = none)
    (h4 : cfg.org_unit = none) (h5 : cfg.org_name = none) :
    cfg.caParams.distinguished_name =
      [(.commonName, ""), (.localityName, ""), (.countryName, ""),
       (.organizationName, ""), (.organizationalUnitName, "")] ∧
    (∀ env : UninstallEnv, env.secSpawnOk = true →
      Event.execSecurityDelete "" (keychainPath env.home) ∈ (cfg.uninstall env).1) ∧
    storedOfConfig Config.default =
      { common_name := some "Mkcert Development Certificate"
        locality := some "San Francisco"
        country := some "US"
        org_unit := some "Development"
        org_name := some "Mkcert"
        thumbprint := none } := by
  refine ⟨?_, ?_, rfl⟩
  · simp [Config.caParams, Config.dnEntries, CertificateParams.defaultParams,
      h1, h2, h3, h4, h5]
  · intro env hs
    cases h6 : env.secSuccess <;> cases h7 : env.removeDirOk <;>
      simp [Config.uninstall, h1, hs, h6, h7]

/-- C8 counterexample to the claim as stated: with the common name absent,
`install` builds the certificate subject with the empty string and
`uninstall` removes by the empty string, not by the fixed fallback
"Mkcert Development Certificate". -/
theorem c8_counterexample :
    cfgNoCN.common_name = none ∧
    cfgNoCN.caParams.distinguished_name =
      [(.commonName, ""), (.localityName, "San Francisco"), (.countryName, "US"),
       (.organizationName, "Mkcert"), (.organizationalUnitName, "Development")] ∧
    (cfgNoCN.uninstall envUOk).1 =
      [Event.execSecurityDelete "" (keychainPath "/h"),
       Event.fsRemoveDirAll (installPath "/h")] ∧
    Config.default.common_name = some "Mkcert Development Certificate" ∧
    ("" : String) ≠ "Mkcert Development Certificate" := by
  refine ⟨rfl, rfl, rfl, rfl, by decide⟩

/-- C8 witness: the amended theorem at the all-absent config. -/
theorem c8_witness :
    cfgAllNone.caParams.distinguished_name =
      [(.commonName, ""), (.localityName, ""), (.countryName, ""),
       (.organizationName, ""), (.organizationalUnitName, "")] ∧
    (∀ env : UninstallEnv, env.secSpawnOk = true →
      Event.execSecurityDelete "" (keychainPath env.home) ∈ (cfgAllNone.uninstall env).1) ∧
    storedOfConfig Config.default =
      { common_name := some "Mkcert Development Certificate"
        locality := some "San Francisco"
        country := some "US"
        org_unit := some "Development"
        org_name := some "Mkcert"
        thumbprint := none } :=
  c8_absent_attributes_become_empty cfgAllNone rfl rfl rfl rfl rfl

/-- C10 (amended): the persisted config file is written by the program only
at process start when it does not yet exist — and that creation can fail
with an IO error, aborting the run before dispatch — with the serialized
defaults, which carry no thumbprint; once it exists, every run of install
and uninstall, and every run of new whose caller-chosen output paths do not
alias the config path, leaves it byte-for-byte unchanged. -/
theorem c10_config_write_discipline (files : List (String × FileContent)) (pre : PreEnv)
    (cmd : Cmd) (fc : FileContent) (hal : cmd.avoidsConfigPath) :
    (getFile files (configPath cmd.home) = some fc →
      getFile (run_fs files pre cmd).1 (configPath cmd.home) = some fc) ∧
    (getFile files (configPath cmd.home) = none →
      pre.createDirOk = true → pre.writeOk = true →
      getFile (run_fs files pre cmd).1 (configPath cmd.home) =
        some (.configJson (storedOfConfig Config.default))) ∧
    (getFile files (configPath cmd.home) = none →
      (pre.createDirOk = false ∨ pre.writeOk = false) →
      (∃ msg, (run_fs files pre cmd).2 = .error (.io msg)) ∧
      getFile (run_fs files pre cmd).1 (configPath cmd.home) = none) := by
  refine ⟨?_, ?_, ?_⟩
  · intro hex
    simp only [run_fs, pre_main_run, hex]
    cases hs : serde_from_str fc with
    | error e => simpa [applyEvents] using hex
    | ok c =>
      simp only [hs]
      exact (getFile_applyEvents_untouched _ files _
        (dispatch_untouched c.toConfig files cmd hal)).trans hex
  · intro hex hc hw
    simp only [run_fs, pre_main_run, hex, hc, hw]
    simp only [Bool.true_eq_false, if_false]
    rw [applyEvents_cons, applyEvents_cons]
    rw [getFile_applyEvents_untouched _ _ _
      (dispatch_untouched (storedOfConfig Config.default).toConfig
        (setFile files (configPath cmd.home) (.configJson (storedOfConfig Config.default)))
        cmd hal)]
    exact getFile_setFile_self files (configPath cmd.home) _
  · intro hex hfail
    cases hc : pre.createDirOk with
    | false =>
      constructor
      · exact ⟨"create_dir_all", by simp [run_fs, pre_main_run, hex, hc]⟩
      · simp [run_fs, pre_main_run, hex, hc, applyEvents]
    | true =>
      have hw : pre.writeOk = false := by
        rcases hfail with h | h
        · rw [hc] at h
          exact absurd h (by simp)
        · exact h
      constructor
      · exact ⟨"write config.json", by simp [run_fs, pre_main_run, hex, hc, hw]⟩
      · simp [run_fs, pre_main_run, hex, hc, hw, applyEvents, applyEvent]

/-- C10 counterexample to the claim as stated: a real run of
`new --cert config.json` with the working directory equal to the config
directory succeeds and overwrites the persisted config file with leaf
certificate PEM, so the file is not left byte-for-byte unchanged by every
run. -/
theorem c10_counterexample :
    getFile filesWithConfig (configPath "/h") =
      some (.configJson (storedOfConfig Config.default)) ∧
    (run_fs filesWithConfig preEnvOk cmdAlias).2 = .ok () ∧
    getFile (run_fs filesWithConfig preEnvOk cmdAlias).1 (configPath "/h") =
      some (.certPem leafAlias) ∧
    FileContent.certPem leafAlias ≠ .configJson (storedOfConfig Config.default) := by
  refine ⟨by decide, rfl, by decide, by decide⟩

/-- C10 witness: the amended frame at a concrete install run over an
existing config file, and a concrete first-run creation. -/
theorem c10_witness :
    (getFile (run_fs filesWithConfig preEnvOk cmdInstallOk).1 (configPath "/h") =
      some (.configJson (storedOfConfig Config.default))) ∧
    (getFile (run_fs [] preEnvOk cmdInstallOk).1 (configPath "/h") =
      some (.configJson (storedOfConfig Config.default))) :=
  ⟨(c10_config_write_discipline filesWithConfig preEnvOk cmdInstallOk
      (.configJson (storedOfConfig Config.default)) True.intro).1 (by decide),
   (c10_config_write_discipline [] preEnvOk cmdInstallOk
      (.configJson (storedOfConfig Config.default)) True.intro).2.1 (by decide) rfl rfl⟩

end Mkcert
